import Mathlib

/-!
Verification of the Epilogue reading-atmosphere core (src/scripts/overlay.js,
background.js, reader.js, presets.js, main.js) against its specification.

Shallow embedding conventions:
* JavaScript numbers are modelled as `Rat` (all values in play are exact
  decimals; no floating-point rounding is relevant to the claims).
* A JavaScript value that may be `null`/`undefined` is modelled as `Option`.
* JavaScript truthiness on strings is `s ≠ ""`, on numbers `x ≠ 0`.
* Preference fields that the code only ever reads through `||` fallbacks are
  modelled as plain `String`/`Rat`/`Bool` (an absent field behaves exactly
  like the falsy `""`/`0`/`false` under `||`); fields read through `??` are
  modelled as `Option` since `??` distinguishes `0` from `undefined`.
* DOM/audio side effects (CSS updates, play/pause) are not state of any
  claim; only the manager fields that the getters report are modelled,
  plus an explicit action trace where a claim is about rendering work.
-/

namespace Epilogue

/-- Clamp to the unit interval, `Math.max(0, Math.min(1, x))`. -/
def clamp01 (x : Rat) : Rat := max 0 (min 1 x)

/-- JavaScript `a || b` for strings: `b` when `a` is falsy (empty). -/
def jsOrS (a b : String) : String := if a = "" then b else a

/-- JavaScript `a || b` for an optional string (`undefined`/`null`/`""` are falsy). -/
def jsOrOS (a : Option String) (b : String) : String :=
  match a with
  | none => b
  | some s => jsOrS s b

/-- JavaScript `a || b` for numbers: `b` when `a` is falsy (zero). -/
def jsOrR (a b : Rat) : Rat := if a = 0 then b else a

/-- JavaScript `a ?? b` for an optional number. -/
def jsNnR (a : Option Rat) (b : Rat) : Rat := a.getD b

/-- JavaScript `a ?? b` for an optional boolean. -/
def jsNnB (a : Option Bool) (b : Bool) : Bool := a.getD b

/-- JavaScript truthiness of an optional string. -/
def optTruthy (a : Option String) : Bool :=
  match a with
  | none => false
  | some s => s ≠ ""

/- ───────────────────────────── OverlayManager ─────────────────────────────
   src/scripts/overlay.js.  Fields `currentColor` / `currentOpacity`; the
   derived rgba paint written to the DOM layer is not part of any getter. -/

/-- State of `OverlayManager`: `currentColor` (hex or `null`) and `currentOpacity`. -/
structure OverlayState where
  currentColor : Option String
  currentOpacity : Rat
deriving Repr, DecidableEq

/-- `new OverlayManager()`: no tint. -/
def OverlayState.init : OverlayState := { currentColor := none, currentOpacity := 0 }

/-- `clearTint()`: reset to the no-tint sentinel. -/
def clearTint (s : OverlayState) : OverlayState :=
  { s with currentColor := none, currentOpacity := 0 }

/-- `setTint(color, opacity)`: falsy color delegates to `clearTint`; otherwise
    clamp the opacity and store both. -/
def setTint (color : Option String) (opacity : Rat) (s : OverlayState) : OverlayState :=
  match color with
  | none => clearTint s
  | some c =>
      if c = "" then clearTint s
      else { s with currentColor := some c, currentOpacity := clamp01 opacity }

/-- `getCurrentTint()`. -/
def getCurrentTint (s : OverlayState) : Option String × Rat :=
  (s.currentColor, s.currentOpacity)

/- ──────────────────────────── BackgroundManager ───────────────────────────
   src/scripts/background.js.  Media fields, video-mute flag, and the music
   fields (`musicPath`, the `bgAudio.volume` property, `musicMuted`). -/

/-- Classification of a background media file. -/
inductive MediaType where
  | image
  | video
deriving Repr, DecidableEq

/-- `IMAGE_EXTENSIONS` from background.js. -/
def IMAGE_EXTENSIONS : List String := ["jpg", "jpeg", "png", "gif", "webp", "bmp"]

/-- `VIDEO_EXTENSIONS` from background.js. -/
def VIDEO_EXTENSIONS : List String := ["mp4", "webm", "mov", "avi", "mkv"]

/-- State of `BackgroundManager`. -/
structure BackgroundState where
  currentMedia : Option String
  currentType : Option MediaType
  muted : Bool
  musicPath : Option String
  musicVolume : Rat
  musicMuted : Bool
deriving Repr, DecidableEq

/-- `new BackgroundManager()`. -/
def BackgroundState.init : BackgroundState :=
  { currentMedia := none, currentType := none, muted := true,
    musicPath := none, musicVolume := 1/2, musicMuted := true }

/-- JavaScript `String.prototype.split` on a one-character separator, over the
    character list of the string (splitting `""` yields `[""]`, as in JS). -/
def splitChar (sep : Char) : List Char → List (List Char)
  | [] => [[]]
  | c :: cs =>
      let rest := splitChar sep cs
      if c = sep then [] :: rest
      else
        match rest with
        | [] => [[c]]
        | r :: rs => (c :: r) :: rs

/-- `_getMediaType(filePath)`: classify by the lower-cased last dot-component,
    `filePath.split('.').pop().toLowerCase()`. -/
def getMediaType (filePath : String) : Option MediaType :=
  let ext := String.mk (((splitChar '.' filePath.data).getLastD []).map Char.toLower)
  if IMAGE_EXTENSIONS.contains ext then some MediaType.image
  else if VIDEO_EXTENSIONS.contains ext then some MediaType.video
  else none

/-- `clearMedia()`. -/
def clearMedia (s : BackgroundState) : BackgroundState :=
  { s with currentMedia := none, currentType := none }

/-- `setMedia(filePath)`: falsy path clears; unsupported extension warns and
    returns without touching state; otherwise record path and type. -/
def setMedia (filePath : String) (s : BackgroundState) : BackgroundState :=
  if filePath = "" then clearMedia s
  else
    match getMediaType filePath with
    | none => s
    | some t => { s with currentMedia := some filePath, currentType := some t }

/-- `setMuted(muted)` for the background video. -/
def setMuted (m : Bool) (s : BackgroundState) : BackgroundState := { s with muted := m }

/-- `getCurrentMedia()`. -/
def getCurrentMedia (s : BackgroundState) : Option String × Option MediaType :=
  (s.currentMedia, s.currentType)

/-- `clearMusic()`: pauses and clears the source; only `musicPath` is state. -/
def clearMusic (s : BackgroundState) : BackgroundState := { s with musicPath := none }

/-- `setMusic(filePath)`: falsy path clears; otherwise store the path and
    point the audio element at it (volume and the mute flag are not touched;
    `bgAudio.muted` is re-synchronised from the unchanged `musicMuted`). -/
def setMusic (filePath : String) (s : BackgroundState) : BackgroundState :=
  if filePath = "" then clearMusic s
  else { s with musicPath := some filePath }

/-- `setMusicVolume(volume)`: 0–100 input stored clamped as 0–1. -/
def setMusicVolume (volume : Rat) (s : BackgroundState) : BackgroundState :=
  { s with musicVolume := max 0 (min 1 (volume / 100)) }

/-- `setMusicMuted(muted)`. -/
def setMusicMuted (m : Bool) (s : BackgroundState) : BackgroundState :=
  { s with musicMuted := m }

/-- `getCurrentMusic()`: path, volume re-scaled to 0–100 with `Math.round`,
    and the mute flag. -/
def getCurrentMusic (s : BackgroundState) : Option String × Int × Bool :=
  (s.musicPath, round (s.musicVolume * 100), s.musicMuted)

/- ────────────────────────────── EpubReader ────────────────────────────────
   src/scripts/reader.js.  The epub.js `book`/`rendition` collaborators are
   opaque; we track their presence and the current location token, and record
   rendering-surface work in an explicit action trace for `setFlow`. -/

/-- Rendering-surface work performed by the reader on its collaborator. -/
inductive RenderAction where
  | destroyRendition
  | renderTo
  | displayAt (loc : Option String)
deriving Repr, DecidableEq

/-- State of `EpubReader` (appearance fields plus collaborator presence). -/
structure ReaderState where
  hasBook : Bool
  hasRendition : Bool
  currentCfi : Option String
  opacity : Rat
  backgroundColor : String
  textColor : String
  glassmorphism : Bool
  blur : Rat
  scrollbarTrack : String
  scrollbarThumb : String
  fontFamily : String
  fontSize : Rat
  flow : String
deriving Repr, DecidableEq

/-- `new EpubReader(containerId)`. -/
def ReaderState.init : ReaderState :=
  { hasBook := false, hasRendition := false, currentCfi := none,
    opacity := 19/20, backgroundColor := "#FFFFFF", textColor := "#1a1a1a",
    glassmorphism := false, blur := 12,
    scrollbarTrack := "transparent", scrollbarThumb := "rgba(255, 255, 255, 0.25)",
    fontFamily := "serif", fontSize := 18, flow := "paginated" }

/-- `setOpacity(opacity)`: clamp to the unit interval. -/
def setOpacity (o : Rat) (s : ReaderState) : ReaderState :=
  { s with opacity := clamp01 o }

/-- `setBackgroundColor(color)`. -/
def setBackgroundColor (c : String) (s : ReaderState) : ReaderState :=
  { s with backgroundColor := c }

/-- `setTextColor(color)` (the rendition theme override is a side effect only). -/
def setTextColor (c : String) (s : ReaderState) : ReaderState :=
  { s with textColor := c }

/-- `setGlassmorphism(enabled)`. -/
def setGlassmorphism (b : Bool) (s : ReaderState) : ReaderState :=
  { s with glassmorphism := b }

/-- `setBlur(px)`: clamp to 0–40. -/
def setBlur (px : Rat) (s : ReaderState) : ReaderState :=
  { s with blur := max 0 (min 40 px) }

/-- `setScrollbarColors(track, thumb)`: each argument updates its field only
    when it is not `undefined`. -/
def setScrollbarColors (track thumb : Option String) (s : ReaderState) : ReaderState :=
  { s with scrollbarTrack := track.getD s.scrollbarTrack,
           scrollbarThumb := thumb.getD s.scrollbarThumb }

/-- `setFontFamily(family)` (the mapped CSS family string is a side effect). -/
def setFontFamily (f : String) (s : ReaderState) : ReaderState :=
  { s with fontFamily := f }

/-- `setFontSize(size)`: clamp to 12–32. -/
def setFontSize (sz : Rat) (s : ReaderState) : ReaderState :=
  { s with fontSize := max 12 (min 32 sz) }

/-- `setFlow(flow)`: store the flow preference; only when a book and a
    rendition are present, capture the location, destroy and recreate the
    rendering surface, re-apply the typography setters, and redisplay. -/
def setFlow (flow : String) (s : ReaderState) : ReaderState × List RenderAction :=
  let s1 := { s with flow := flow }
  if s1.hasBook && s1.hasRendition then
    let loc := s1.currentCfi
    let s2 := setFontFamily s1.fontFamily s1
    let s3 := setFontSize s2.fontSize s2
    let s4 := setTextColor s3.textColor s3
    (s4, [RenderAction.destroyRendition, RenderAction.renderTo, RenderAction.displayAt loc])
  else
    (s1, [])

/- ────────────────────────────── PresetManager ─────────────────────────────
   src/scripts/presets.js.  Presets are JSON objects; absent (`undefined`)
   sub-objects and fields are `Option.none`. -/

/-- JavaScript truthiness of an optional number. -/
def ratTruthy (a : Option Rat) : Bool :=
  match a with
  | none => false
  | some x => x ≠ 0

/-- The `background` section of a preset. -/
structure PresetBackground where
  type : String
  path : Option String
deriving Repr, DecidableEq

/-- The `overlay` section of a preset. -/
structure PresetOverlay where
  color : Option String
  opacity : Rat
deriving Repr, DecidableEq

/-- The `reader` section of a preset; every field may be absent. -/
structure PresetReader where
  opacity : Option Rat
  backgroundColor : Option String
  textColor : Option String
  fontFamily : Option String
  fontSize : Option Rat
  readingMode : Option String
  glassmorphism : Option Bool
  glassBlur : Option Rat
  scrollbarTrack : Option String
  scrollbarThumb : Option String
deriving Repr, DecidableEq

/-- A preset snapshot as stored and applied by `PresetManager`. -/
structure Preset where
  version : String
  name : String
  author : String
  description : String
  background : Option PresetBackground
  overlay : Option PresetOverlay
  reader : Option PresetReader
deriving Repr, DecidableEq

/-- The combined state of the three manager instances `applyPreset` mutates. -/
structure AppState where
  bg : BackgroundState
  overlay : OverlayState
  reader : ReaderState
deriving Repr, DecidableEq

/-- The three freshly constructed managers. -/
def AppState.init : AppState :=
  { bg := BackgroundState.init, overlay := OverlayState.init, reader := ReaderState.init }

/-- Identifier of each underlying call made inside the try block of
    `applyPreset`, for fault injection. -/
inductive SetterId where
  | bgSetMedia
  | bgClearMedia
  | getAppDir
  | ovSetTint
  | rdOpacity
  | rdBackgroundColor
  | rdTextColor
  | rdFontFamily
  | rdFontSize
  | rdFlow
  | rdGlass
  | rdBlur
  | rdScrollbar
deriving Repr, DecidableEq

/-- Run one underlying call of `applyPreset`: a call in the fault set throws
    (before mutating anything), carrying the state reached so far to the
    `catch`; otherwise its state update applies. -/
def step (throws : SetterId → Bool) (i : SetterId) (f : AppState → AppState)
    (st : AppState) : Except AppState AppState :=
  if throws i then Except.error st else Except.ok (f st)

/-- A conditionally executed call (`if (...) this.reader.setX(...)`). -/
def stepIf (throws : SetterId → Bool) (cond : Bool) (i : SetterId)
    (f : AppState → AppState) (st : AppState) : Except AppState AppState :=
  if cond then step throws i f st else Except.ok st

/-- No call throws. -/
def noThrow : SetterId → Bool := fun _ => false

/-- The background section of the `applyPreset` try block. -/
def applyBackgroundStep (throws : SetterId → Bool) (isTauri : Bool) (appDir : String)
    (b : PresetBackground) (st : AppState) : Except AppState AppState :=
  if (b.type == "media") && optTruthy b.path then
    step throws SetterId.bgSetMedia
      (fun s => { s with bg := setMedia (b.path.getD "") s.bg }) st
  else if (b.type == "image") && optTruthy b.path then
    if isTauri then
      match step throws SetterId.getAppDir id st with
      | Except.error s => Except.error s
      | Except.ok s =>
          step throws SetterId.bgSetMedia
            (fun s1 => { s1 with bg := setMedia (appDir ++ "/" ++ b.path.getD "") s1.bg }) s
    else
      step throws SetterId.bgSetMedia
        (fun s => { s with bg := setMedia (b.path.getD "") s.bg }) st
  else
    step throws SetterId.bgClearMedia (fun s => { s with bg := clearMedia s.bg }) st

/-- The reader section of the `applyPreset` try block: each defined/truthy
    field is pushed into the corresponding `EpubReader` setter. -/
def applyReaderStep (throws : SetterId → Bool) (r : PresetReader) (st0 : AppState) :
    Except AppState AppState := do
  let st1 ← stepIf throws r.opacity.isSome SetterId.rdOpacity
    (fun s => { s with reader := setOpacity (r.opacity.getD 0) s.reader }) st0
  let st2 ← stepIf throws (optTruthy r.backgroundColor) SetterId.rdBackgroundColor
    (fun s => { s with reader := setBackgroundColor (r.backgroundColor.getD "") s.reader }) st1
  let st3 ← stepIf throws (optTruthy r.textColor) SetterId.rdTextColor
    (fun s => { s with reader := setTextColor (r.textColor.getD "") s.reader }) st2
  let st4 ← stepIf throws (optTruthy r.fontFamily) SetterId.rdFontFamily
    (fun s => { s with reader := setFontFamily (r.fontFamily.getD "") s.reader }) st3
  let st5 ← stepIf throws (ratTruthy r.fontSize) SetterId.rdFontSize
    (fun s => { s with reader := setFontSize (r.fontSize.getD 0) s.reader }) st4
  let st6 ← stepIf throws (optTruthy r.readingMode) SetterId.rdFlow
    (fun s => { s with reader := (setFlow (r.readingMode.getD "") s.reader).1 }) st5
  let st7 ← stepIf throws r.glassmorphism.isSome SetterId.rdGlass
    (fun s => { s with reader := setGlassmorphism (r.glassmorphism.getD false) s.reader }) st6
  let st8 ← stepIf throws r.glassBlur.isSome SetterId.rdBlur
    (fun s => { s with reader := setBlur (r.glassBlur.getD 0) s.reader }) st7
  stepIf throws (optTruthy r.scrollbarTrack || optTruthy r.scrollbarThumb) SetterId.rdScrollbar
    (fun s => { s with reader := setScrollbarColors r.scrollbarTrack r.scrollbarThumb s.reader }) st8

/-- The whole try block of `applyPreset`: background, then overlay, then
    reader; a throw aborts the rest, keeping all mutations made so far. -/
def applyPresetBody (throws : SetterId → Bool) (isTauri : Bool) (appDir : String)
    (p : Preset) (st0 : AppState) : Except AppState AppState := do
  let st1 ←
    match p.background with
    | some b => applyBackgroundStep throws isTauri appDir b st0
    | none => Except.ok st0
  let st2 ←
    match p.overlay with
    | some o =>
        step throws SetterId.ovSetTint
          (fun s => { s with overlay := setTint o.color o.opacity s.overlay }) st1
    | none => Except.ok st1
  match p.reader with
  | some r => applyReaderStep throws r st2
  | none => Except.ok st2

/-- `applyPreset` once the preset object is in hand: the try/catch result as
    the returned success flag and final manager state. -/
def applyPresetFound (throws : SetterId → Bool) (isTauri : Bool) (appDir : String)
    (p : Preset) (st : AppState) : Bool × AppState :=
  match applyPresetBody throws isTauri appDir p st with
  | Except.ok st1 => (true, st1)
  | Except.error st1 => (false, st1)

/-- `applyPreset(presetName)`: look the name up in the in-memory cache, fall
    back to a backend `load_preset` under Tauri (`none` = the call threw or
    produced nothing), and return `false` untouched when no preset is found. -/
def applyPreset (throws : SetterId → Bool) (isTauri : Bool) (appDir : String)
    (backendLoad : String → Option Preset) (presets : List Preset)
    (presetName : String) (st : AppState) : Bool × AppState :=
  match presets.find? (fun p => p.name == presetName) with
  | some p => applyPresetFound throws isTauri appDir p st
  | none =>
      if isTauri then
        match backendLoad presetName with
        | some p => applyPresetFound throws isTauri appDir p st
        | none => (false, st)
      else (false, st)

/- ─────────────────────── ApplicationPreferences (main.js) ─────────────────
   The `currentPrefs` record.  Fields the code reads only through `||` are
   plain (`""`/`0` is exactly the falsy case); fields read through `??` are
   `Option` since `??` keeps `0`. -/

/-- The atmosphere-relevant fields of `currentPrefs`. -/
structure Prefs where
  fontFamily : String
  fontSize : Rat
  readingMode : String
  textColor : String
  containerColor : String
  containerOpacity : Option Rat
  glassmorphism : Bool
  glassBlur : Option Rat
  scrollbarTrack : String
  scrollbarThumb : String
  bgMediaPath : Option String
  bgAudioMuted : Option Bool
deriving Repr, DecidableEq

/-- The initial `currentPrefs` literal from main.js. -/
def Prefs.init : Prefs :=
  { fontFamily := "serif", fontSize := 18, readingMode := "paginated",
    textColor := "#1a1a1a", containerColor := "#FFFFFF",
    containerOpacity := some 95, glassmorphism := false, glassBlur := some 12,
    scrollbarTrack := "#1a1a1a", scrollbarThumb := "#4a9eff",
    bgMediaPath := none, bgAudioMuted := some true }

/-- `buildPresetFromCurrent(name, currentPrefs)`: snapshot the background and
    overlay managers and the preference record into a version-2.0 preset. -/
def buildPresetFromCurrent (name : String) (prefs : Prefs) (st : AppState) : Preset :=
  let bgMedia := getCurrentMedia st.bg
  { version := "2.0", name := name, author := "User",
    description := "Custom preset: " ++ name,
    background := some
      { type := if optTruthy bgMedia.1 then "media" else "none",
        path := if optTruthy bgMedia.1 then bgMedia.1 else none },
    overlay := some
      { color := some (jsOrOS st.overlay.currentColor "#000000"),
        opacity := jsOrR st.overlay.currentOpacity 0 },
    reader := some
      { opacity := some (jsNnR prefs.containerOpacity 95 / 100),
        backgroundColor := some (jsOrS prefs.containerColor "#FFFFFF"),
        textColor := some (jsOrS prefs.textColor "#1a1a1a"),
        fontFamily := some (jsOrS prefs.fontFamily "serif"),
        fontSize := some (jsOrR prefs.fontSize 18),
        readingMode := some (jsOrS prefs.readingMode "paginated"),
        glassmorphism := some prefs.glassmorphism,
        glassBlur := some (jsNnR prefs.glassBlur 12),
        scrollbarTrack := some (jsOrS prefs.scrollbarTrack "#1a1a1a"),
        scrollbarThumb := some (jsOrS prefs.scrollbarThumb "#4a9eff") } }

/-- `extractPrefsFromPreset(preset)` followed by `Object.assign(currentPrefs, ...)`:
    each defined/truthy preset field overwrites the preference field; the
    background path is always written (possibly to `null`). -/
def syncPrefsFromPreset (p : Preset) (prefs : Prefs) : Prefs :=
  let prefs1 :=
    match p.reader with
    | none => prefs
    | some r =>
        { prefs with
          fontFamily := if optTruthy r.fontFamily then r.fontFamily.getD "" else prefs.fontFamily,
          fontSize := if ratTruthy r.fontSize then r.fontSize.getD 0 else prefs.fontSize,
          readingMode := if optTruthy r.readingMode then r.readingMode.getD "" else prefs.readingMode,
          textColor := if optTruthy r.textColor then r.textColor.getD "" else prefs.textColor,
          containerColor :=
            if optTruthy r.backgroundColor then r.backgroundColor.getD "" else prefs.containerColor,
          containerOpacity :=
            match r.opacity with
            | some o => some ((round (o * 100) : Int) : Rat)
            | none => prefs.containerOpacity,
          glassmorphism :=
            match r.glassmorphism with
            | some g => g
            | none => prefs.glassmorphism,
          glassBlur :=
            match r.glassBlur with
            | some bl => some bl
            | none => prefs.glassBlur,
          scrollbarTrack :=
            if optTruthy r.scrollbarTrack then r.scrollbarTrack.getD "" else prefs.scrollbarTrack,
          scrollbarThumb :=
            if optTruthy r.scrollbarThumb then r.scrollbarThumb.getD "" else prefs.scrollbarThumb }
  match p.background with
  | some b =>
      if optTruthy b.path then { prefs1 with bgMediaPath := b.path }
      else { prefs1 with bgMediaPath := none }
  | none => { prefs1 with bgMediaPath := none }

/-- The first-run branch of `init()` (main.js lines 986–1002): push the
    preference record directly into each state holder. -/
def applyPrefsDirect (prefs : Prefs) (st : AppState) : AppState :=
  let rd0 := st.reader
  let rd1 := setFontFamily prefs.fontFamily rd0
  let rd2 := setFontSize prefs.fontSize rd1
  let rd3 := (setFlow (jsOrS prefs.readingMode "paginated") rd2).1
  let rd4 := setTextColor (jsOrS prefs.textColor "#1a1a1a") rd3
  let rd5 := setBackgroundColor (jsOrS prefs.containerColor "#FFFFFF") rd4
  let rd6 := setOpacity (jsNnR prefs.containerOpacity 95 / 100) rd5
  let rd7 := setGlassmorphism prefs.glassmorphism rd6
  let rd8 := setBlur (jsNnR prefs.glassBlur 12) rd7
  let rd9 := setScrollbarColors (some (jsOrS prefs.scrollbarTrack "#1a1a1a"))
    (some (jsOrS prefs.scrollbarThumb "#4a9eff")) rd8
  let bg1 :=
    if optTruthy prefs.bgMediaPath then setMedia (prefs.bgMediaPath.getD "") st.bg else st.bg
  let bg2 := setMuted (jsNnB prefs.bgAudioMuted true) bg1
  { st with reader := rd9, bg := bg2 }

/-- The session-restore decision of `init()` (main.js lines 976–1003): when a
    `_last_session` preset is in the loaded list, apply it and synchronize the
    preference record from the applied preset; otherwise apply the preference
    record directly to the state holders. -/
def initApplyAtmosphere (isTauri : Bool) (appDir : String)
    (backendLoad : String → Option Preset) (presets : List Preset)
    (prefs : Prefs) (st : AppState) : AppState × Prefs :=
  if presets.any (fun p => p.name == "_last_session") then
    let res := applyPreset noThrow isTauri appDir backendLoad presets "_last_session" st
    if res.1 then
      match presets.find? (fun p => p.name == "_last_session") with
      | some p => (res.2, syncPrefsFromPreset p prefs)
      | none => (res.2, prefs)
    else (res.2, prefs)
  else (applyPrefsDirect prefs st, prefs)

/- ─────────────────────── Persistence boundary and listing ─────────────────
   The Tauri backend commands used by `loadPresets`/`deletePreset`.  The Rust
   implementations are not part of the embedded sources; each call is a field
   (`none` models the call throwing). -/

/-- One persistence boundary instance. -/
structure Backend where
  listPresetNames : Option (List String)
  loadStoredPreset : String → Option Preset
  deleteStoredPreset : String → Option Unit

/-- The built-in preset `Cozy Reading` from `_getFallbackPresets`. -/
def cozyReading : Preset :=
  { version := "2.0", name := "Cozy Reading", author := "EPUB Team",
    description := "Warm, comfortable reading atmosphere",
    background := some { type := "none", path := none },
    overlay := some { color := some "#8B4513", opacity := 1/5 },
    reader := some
      { opacity := some (23/25), backgroundColor := some "#FFF8DC",
        textColor := some "#3e2723", fontFamily := some "serif", fontSize := some 18,
        readingMode := some "paginated", glassmorphism := some false, glassBlur := some 12,
        scrollbarTrack := some "#1a1a1a", scrollbarThumb := some "#8B4513" } }

/-- The built-in preset `Focus Mode` from `_getFallbackPresets`. -/
def focusMode : Preset :=
  { version := "2.0", name := "Focus Mode", author := "EPUB Team",
    description := "Minimal distraction, maximum concentration",
    background := some { type := "none", path := none },
    overlay := some { color := some "#000000", opacity := 0 },
    reader := some
      { opacity := some 1, backgroundColor := some "#FFFFFF",
        textColor := some "#1a1a1a", fontFamily := some "sans-serif", fontSize := some 18,
        readingMode := some "paginated", glassmorphism := some false, glassBlur := some 0,
        scrollbarTrack := some "#f0f0f0", scrollbarThumb := some "#999999" } }

/-- The built-in preset `Night Reading` from `_getFallbackPresets`. -/
def nightReading : Preset :=
  { version := "2.0", name := "Night Reading", author := "EPUB Team",
    description := "Gentle on the eyes for late-night reading",
    background := some { type := "none", path := none },
    overlay := some { color := some "#1a1a2e", opacity := 2/5 },
    reader := some
      { opacity := some (17/20), backgroundColor := some "#2d2d2d",
        textColor := some "#e0e0e0", fontFamily := some "serif", fontSize := some 20,
        readingMode := some "paginated", glassmorphism := some false, glassBlur := some 8,
        scrollbarTrack := some "#1a1a1a", scrollbarThumb := some "#555555" } }

/-- `_getFallbackPresets()`. -/
def fallbackPresets : List Preset := [cozyReading, focusMode, nightReading]

/-- The `BUILTIN_NAMES` constant from `renderPresetList`. -/
def BUILTIN_NAMES : List String := ["Cozy Reading", "Focus Mode", "Night Reading"]

/-- `loadPresets()`: fallback data without Tauri or when the listing call
    throws; otherwise the cache holds exactly the stored presets whose
    individual loads succeed (a failed load is logged and skipped). -/
def loadPresets (isTauri : Bool) (b : Backend) : List Preset :=
  if !isTauri then fallbackPresets
  else
    match b.listPresetNames with
    | none => fallbackPresets
    | some names => names.filterMap b.loadStoredPreset

/-- `deletePreset(name)`: outside Tauri a no-op; otherwise invoke the backend
    deletion and, when it succeeds, refresh the cache from storage (a thrown
    deletion is caught and leaves the cache as it was). -/
def deletePresetFront (isTauri : Bool) (b : Backend) (name : String)
    (presets : List Preset) : List Preset :=
  if !isTauri then presets
  else
    match b.deleteStoredPreset name with
    | none => presets
    | some _ => loadPresets isTauri b

/-- Modelled from the spec: the backend `delete_preset` command itself lives
    in the Rust backend, outside the embedded sources; the spec states that
    deleting any of the three built-in presets is refused.  A backend is
    spec-conforming when its delete call refuses (throws on) built-in names. -/
def refusesBuiltinDeletes (b : Backend) : Prop :=
  ∀ n, n ∈ BUILTIN_NAMES → b.deleteStoredPreset n = none

/- ─────────────────── Debounced progress persistence (main.js) ─────────────
   The `relocated` handler of `openBookFromFile`: each event clears the
   pending timer and schedules a write of its own payload 2000 ms later; the
   write itself is guarded by a non-empty current book id.  The progress
   fraction computed by the rendering collaborator is carried opaquely. -/

/-- One `relocated` event: its arrival time and the payload its scheduled
    write would persist (`location.start.cfi` and the fraction). -/
structure Relocated where
  time : Nat
  cfi : String
  fraction : Rat
deriving Repr, DecidableEq

/-- The persisted writes produced by a time-ordered event sequence: an
    event's timer fires (at its time plus the window) unless a later event
    arrives first and cancels it; the last event's timer always fires. -/
def debounceWrites (window : Nat) (bookId : Option String) :
    List Relocated → List (String × Rat)
  | [] => []
  | [e] => if optTruthy bookId then [(e.cfi, e.fraction)] else []
  | e :: e2 :: rest =>
      if e2.time < e.time + window then
        debounceWrites window bookId (e2 :: rest)
      else if optTruthy bookId then
        (e.cfi, e.fraction) :: debounceWrites window bookId (e2 :: rest)
      else
        debounceWrites window bookId (e2 :: rest)

/- Concrete instances used by counterexamples and witnesses. -/

/-- A fault set in which only `OverlayManager.setTint` throws. -/
def throwTint : SetterId → Bool := fun i => i == SetterId.ovSetTint

/-- A user preset carrying a background, an overlay tint and no reader section. -/
def mediaPreset : Preset :=
  { version := "2.0", name := "vibe", author := "User", description := "",
    background := some { type := "media", path := some "bg.png" },
    overlay := some { color := some "#112233", opacity := 1/2 },
    reader := none }

/-- A backend whose listing call succeeds with zero stored presets. -/
def emptyStoreBackend : Backend :=
  { listPresetNames := some [], loadStoredPreset := fun _ => none,
    deleteStoredPreset := fun _ => none }

/-- A backend whose listing call throws. -/
def downBackend : Backend :=
  { listPresetNames := none, loadStoredPreset := fun _ => none,
    deleteStoredPreset := fun _ => none }

/-- A backend that refuses deletion of the built-in names. -/
def refusingBackend : Backend :=
  { listPresetNames := some [], loadStoredPreset := fun _ => none,
    deleteStoredPreset := fun n => if n ∈ BUILTIN_NAMES then none else some () }

/-- A `_last_session` snapshot, as `saveLastSession` would have captured it. -/
def sessionSnapshot : Preset :=
  buildPresetFromCurrent "_last_session" Prefs.init AppState.init

/-- The state of the managers after a first-run bootstrap (no stored session,
    default preferences): a reachable state whose overlay is still cleared. -/
def bootState : AppState := applyPrefsDirect Prefs.init AppState.init

/-- A reachable-shape state for the round-trip: media set, overlay tinted,
    reader fields agreeing with the default preference record. -/
def rtState : AppState :=
  { bg := { BackgroundState.init with
      currentMedia := some "bg.png",
      currentType := getMediaType "bg.png" },
    overlay := { currentColor := some "#1a1a2e", currentOpacity := 0 },
    reader := { ReaderState.init with
      opacity := clamp01 (jsNnR Prefs.init.containerOpacity 95 / 100),
      backgroundColor := jsOrS Prefs.init.containerColor "#FFFFFF",
      textColor := jsOrS Prefs.init.textColor "#1a1a1a",
      fontFamily := jsOrS Prefs.init.fontFamily "serif",
      fontSize := max 12 (min 32 (jsOrR Prefs.init.fontSize 18)),
      flow := jsOrS Prefs.init.readingMode "paginated",
      glassmorphism := Prefs.init.glassmorphism,
      blur := max 0 (min 40 (jsNnR Prefs.init.glassBlur 12)),
      scrollbarTrack := jsOrS Prefs.init.scrollbarTrack "#1a1a1a",
      scrollbarThumb := jsOrS Prefs.init.scrollbarThumb "#4a9eff" } }

/-- Three relocation events inside one 2000 ms debounce window. -/
def relocEvents : List Relocated :=
  [{ time := 0, cfi := "cfiA", fraction := 0 },
   { time := 500, cfi := "cfiB", fraction := 1/10 },
   { time := 1000, cfi := "cfiC", fraction := 1/5 }]

end Epilogue

namespace Epilogue

/- Shared lemmas about the fault-free execution of the applyPreset try block. -/

theorem step_noThrow_eq (i : SetterId) (f : AppState → AppState) (st : AppState) :
    step noThrow i f st = Except.ok (f st) := rfl

theorem stepIf_noThrow_eq (c : Bool) (i : SetterId) (f : AppState → AppState) (st : AppState) :
    stepIf noThrow c i f st = Except.ok (if c then f st else st) := by
  cases c <;> rfl

theorem exceptOkBind (a : AppState) (f : AppState → Except AppState AppState) :
    (Except.ok a >>= f) = f a := rfl

theorem applyBackgroundStep_noThrow_isOk (it : Bool) (ad : String) (b : PresetBackground)
    (st : AppState) : ∃ s, applyBackgroundStep noThrow it ad b st = Except.ok s := by
  unfold applyBackgroundStep
  split_ifs <;> simp [step_noThrow_eq]

theorem applyReaderStep_noThrow_isOk (r : PresetReader) (st : AppState) :
    ∃ s, applyReaderStep noThrow r st = Except.ok s := by
  simp only [applyReaderStep, stepIf_noThrow_eq]
  exact ⟨_, rfl⟩

theorem applyPresetBody_noThrow_isOk (it : Bool) (ad : String) (p : Preset) (st : AppState) :
    ∃ s, applyPresetBody noThrow it ad p st = Except.ok s := by
  unfold applyPresetBody
  cases p.background with
  | none =>
    cases p.overlay with
    | none =>
      cases p.reader with
      | none => exact ⟨st, rfl⟩
      | some r => exact applyReaderStep_noThrow_isOk r st
    | some o =>
      cases p.reader with
      | none => exact ⟨_, rfl⟩
      | some r => exact applyReaderStep_noThrow_isOk r _
  | some b =>
    obtain ⟨s1, h1⟩ := applyBackgroundStep_noThrow_isOk it ad b st
    simp only [h1]
    cases p.overlay with
    | none =>
      cases p.reader with
      | none => exact ⟨s1, rfl⟩
      | some r => exact applyReaderStep_noThrow_isOk r s1
    | some o =>
      cases p.reader with
      | none => exact ⟨_, rfl⟩
      | some r => exact applyReaderStep_noThrow_isOk r _

theorem applyPresetFound_noThrow_fst (it : Bool) (ad : String) (p : Preset) (st : AppState) :
    (applyPresetFound noThrow it ad p st).1 = true := by
  obtain ⟨s, h⟩ := applyPresetBody_noThrow_isOk it ad p st
  simp [applyPresetFound, h]

/- Shared lemmas about the JavaScript fallback helpers and clamping. -/

theorem jsOrR_zero (a : Rat) : jsOrR a 0 = a := by
  unfold jsOrR
  split <;> simp_all

theorem jsOrS_ne_empty (a d : String) (hd : d ≠ "") : jsOrS a d ≠ "" := by
  unfold jsOrS
  split <;> simp_all

theorem jsOrR_ne_zero (a d : Rat) (hd : d ≠ 0) : jsOrR a d ≠ 0 := by
  unfold jsOrR
  split <;> simp_all

theorem clamp1232_idem (x : Rat) :
    max 12 (min 32 (max 12 (min 32 x))) = max 12 (min 32 x) := by
  have h1 : max 12 (min 32 x) ≤ 32 := max_le (by norm_num) (min_le_left _ _)
  rw [min_eq_right h1, max_eq_right (le_max_left _ _)]

/- Round-trip identities: applying a value captured from a consistent state
   back through the corresponding setter leaves the state unchanged. -/

theorem clearMedia_of_none (bg : BackgroundState) (hm : bg.currentMedia = none)
    (ht : bg.currentType = none) : clearMedia bg = bg := by
  cases bg
  simp_all [clearMedia]

theorem setMedia_self (bg : BackgroundState) (q : String) (hm : bg.currentMedia = some q)
    (hq : q ≠ "") (ht : getMediaType q = bg.currentType) : setMedia q bg = bg := by
  unfold setMedia
  rw [if_neg hq, ht]
  cases hct : bg.currentType with
  | none => rfl
  | some t =>
    cases bg
    simp_all

theorem capturedBackground_apply (it : Bool) (ad : String) (st : AppState)
    (hb1 : ∀ q, st.bg.currentMedia = some q → q ≠ "" ∧ getMediaType q = st.bg.currentType)
    (hb2 : st.bg.currentMedia = none → st.bg.currentType = none) :
    applyBackgroundStep noThrow it ad
      { type := if optTruthy (getCurrentMedia st.bg).1 then "media" else "none",
        path := if optTruthy (getCurrentMedia st.bg).1 then (getCurrentMedia st.bg).1 else none }
      st = Except.ok st := by
  cases hm : st.bg.currentMedia with
  | none =>
    have hclear : clearMedia st.bg = st.bg := clearMedia_of_none st.bg hm (hb2 hm)
    simp [getCurrentMedia, hm, optTruthy, applyBackgroundStep, step_noThrow_eq, hclear]
  | some q =>
    obtain ⟨hq, ht⟩ := hb1 q hm
    have hset : setMedia q st.bg = st.bg := setMedia_self st.bg q hm hq ht
    simp [getCurrentMedia, hm, optTruthy, hq, applyBackgroundStep, step_noThrow_eq, hset]

theorem capturedOverlay_apply (ov : OverlayState)
    (ho1 : ov.currentColor ≠ none) (ho2 : ov.currentColor ≠ some "")
    (ho3 : 0 ≤ ov.currentOpacity) (ho4 : ov.currentOpacity ≤ 1) :
    setTint (some (jsOrOS ov.currentColor "#000000")) (jsOrR ov.currentOpacity 0) ov
      = ov := by
  cases hc : ov.currentColor with
  | none => exact absurd hc ho1
  | some c =>
    have hcne : c ≠ "" := by
      intro h
      exact ho2 (by rw [hc, h])
    have hclamp : clamp01 ov.currentOpacity = ov.currentOpacity := by
      unfold clamp01
      rw [min_eq_right ho4, max_eq_right ho3]
    cases ov
    simp_all [jsOrOS, jsOrS, setTint, jsOrR_zero]

theorem capturedReader_apply (prefs : Prefs) (st : AppState)
    (h1 : st.reader.opacity = clamp01 (jsNnR prefs.containerOpacity 95 / 100))
    (h2 : st.reader.backgroundColor = jsOrS prefs.containerColor "#FFFFFF")
    (h3 : st.reader.textColor = jsOrS prefs.textColor "#1a1a1a")
    (h4 : st.reader.fontFamily = jsOrS prefs.fontFamily "serif")
    (h5 : st.reader.fontSize = max 12 (min 32 (jsOrR prefs.fontSize 18)))
    (h6 : st.reader.flow = jsOrS prefs.readingMode "paginated")
    (h7 : st.reader.glassmorphism = prefs.glassmorphism)
    (h8 : st.reader.blur = max 0 (min 40 (jsNnR prefs.glassBlur 12)))
    (h9 : st.reader.scrollbarTrack = jsOrS prefs.scrollbarTrack "#1a1a1a")
    (h10 : st.reader.scrollbarThumb = jsOrS prefs.scrollbarThumb "#4a9eff") :
    applyReaderStep noThrow
      { opacity := some (jsNnR prefs.containerOpacity 95 / 100),
        backgroundColor := some (jsOrS prefs.containerColor "#FFFFFF"),
        textColor := some (jsOrS prefs.textColor "#1a1a1a"),
        fontFamily := some (jsOrS prefs.fontFamily "serif"),
        fontSize := some (jsOrR prefs.fontSize 18),
        readingMode := some (jsOrS prefs.readingMode "paginated"),
        glassmorphism := some prefs.glassmorphism,
        glassBlur := some (jsNnR prefs.glassBlur 12),
        scrollbarTrack := some (jsOrS prefs.scrollbarTrack "#1a1a1a"),
        scrollbarThumb := some (jsOrS prefs.scrollbarThumb "#4a9eff") } st
      = Except.ok st := by
  have e1 : setOpacity (jsNnR prefs.containerOpacity 95 / 100) st.reader = st.reader := by
    unfold setOpacity
    rw [← h1]
  have e2 : setBackgroundColor (jsOrS prefs.containerColor "#FFFFFF") st.reader = st.reader := by
    unfold setBackgroundColor
    rw [← h2]
  have e3 : setTextColor (jsOrS prefs.textColor "#1a1a1a") st.reader = st.reader := by
    unfold setTextColor
    rw [← h3]
  have e4 : setFontFamily (jsOrS prefs.fontFamily "serif") st.reader = st.reader := by
    unfold setFontFamily
    rw [← h4]
  have e5 : setFontSize (jsOrR prefs.fontSize 18) st.reader = st.reader := by
    unfold setFontSize
    rw [← h5]
  have e7 : setGlassmorphism prefs.glassmorphism st.reader = st.reader := by
    unfold setGlassmorphism
    rw [← h7]
  have e8 : setBlur (jsNnR prefs.glassBlur 12) st.reader = st.reader := by
    unfold setBlur
    rw [← h8]
  have e9 : setScrollbarColors (some (jsOrS prefs.scrollbarTrack "#1a1a1a"))
      (some (jsOrS prefs.scrollbarThumb "#4a9eff")) st.reader = st.reader := by
    unfold setScrollbarColors
    simp only [Option.getD_some]
    rw [← h9, ← h10]
  have hfsidem : max 12 (min 32 st.reader.fontSize) = st.reader.fontSize := by
    rw [h5, clamp1232_idem]
  have e6 : (setFlow (jsOrS prefs.readingMode "paginated") st.reader).1 = st.reader := by
    have hflow : { st.reader with flow := jsOrS prefs.readingMode "paginated" } = st.reader := by
      rw [← h6]
    unfold setFlow
    simp only [hflow]
    split
    · simp [setFontFamily, setFontSize, setTextColor, hfsidem]
    · rfl
  have g2 : optTruthy (some (jsOrS prefs.containerColor "#FFFFFF")) = true := by
    simp only [optTruthy]
    simp [jsOrS_ne_empty _ _ (by decide : ("#FFFFFF" : String) ≠ "")]
  have g3 : optTruthy (some (jsOrS prefs.textColor "#1a1a1a")) = true := by
    simp only [optTruthy]
    simp [jsOrS_ne_empty _ _ (by decide : ("#1a1a1a" : String) ≠ "")]
  have g4 : optTruthy (some (jsOrS prefs.fontFamily "serif")) = true := by
    simp only [optTruthy]
    simp [jsOrS_ne_empty _ _ (by decide : ("serif" : String) ≠ "")]
  have g5 : ratTruthy (some (jsOrR prefs.fontSize 18)) = true := by
    simp only [ratTruthy]
    simp [jsOrR_ne_zero _ _ (by norm_num : (18 : Rat) ≠ 0)]
  have g6 : optTruthy (some (jsOrS prefs.readingMode "paginated")) = true := by
    simp only [optTruthy]
    simp [jsOrS_ne_empty _ _ (by decide : ("paginated" : String) ≠ "")]
  have g9 : optTruthy (some (jsOrS prefs.scrollbarTrack "#1a1a1a")) = true := by
    simp only [optTruthy]
    simp [jsOrS_ne_empty _ _ (by decide : ("#1a1a1a" : String) ≠ "")]
  simp only [applyReaderStep, stepIf_noThrow_eq]
  simp [exceptOkBind, g2, g3, g4, g5, g6, g9, e1, e2, e3, e4, e5, e6, e7, e8, e9]

end Epilogue

namespace Epilogue

/-- Claim C6: for every non-empty hex color string and every opacity,
`setTint` followed by `getCurrentTint` returns exactly the given color with
the opacity clamped into the unit interval; out-of-range opacity is clamped,
never rejected, and `setTint` (a total function) signals no error. -/
theorem C6_setTint_getCurrentTint (c : String) (o : Rat) (s : OverlayState)
    (hc : c ≠ "") :
    getCurrentTint (setTint (some c) o s) = (some c, clamp01 o) := by
  simp [setTint, getCurrentTint, hc]

/-- Witness for C6 at a concrete over-range opacity. -/
theorem C6_setTint_getCurrentTint_witness :
    "#ff0000" ≠ "" ∧
      getCurrentTint (setTint (some "#ff0000") (3/2) OverlayState.init)
        = (some "#ff0000", clamp01 (3/2)) :=
  ⟨by decide, C6_setTint_getCurrentTint "#ff0000" (3/2) OverlayState.init (by decide)⟩

/-- Claim C10: `setTint` with a null or empty color behaves exactly like
`clearTint`: the stored tint becomes the no-tint sentinel and the opacity
argument is ignored, so no state with a null color and nonzero opacity can
arise from it. -/
theorem C10_setTint_falsy_clears (c : Option String) (o : Rat) (s : OverlayState)
    (hc : c = none ∨ c = some "") :
    setTint c o s = clearTint s ∧ getCurrentTint (setTint c o s) = (none, 0) := by
  rcases hc with h | h <;> subst h <;> simp [setTint, clearTint, getCurrentTint]

/-- Witness for C10 at the empty-string color and a nonzero opacity. -/
theorem C10_setTint_falsy_clears_witness :
    ((some "" : Option String) = none ∨ (some "" : Option String) = some "") ∧
      (setTint (some "") (1/2) OverlayState.init = clearTint OverlayState.init ∧
        getCurrentTint (setTint (some "") (1/2) OverlayState.init) = (none, 0)) :=
  ⟨Or.inr rfl, C10_setTint_falsy_clears (some "") (1/2) OverlayState.init (Or.inr rfl)⟩

/-- Claim C7: `setMedia` on a (non-empty) path whose extension is neither a
supported image nor a supported video extension performs no state mutation at
all, so `getCurrentMedia` is unchanged, and no error is thrown (total
function). -/
theorem C7_setMedia_unsupported_noop (p : String) (s : BackgroundState)
    (hp : p ≠ "") (hu : getMediaType p = none) :
    setMedia p s = s := by
  simp [setMedia, hp, hu]

/-- Witness for C7 at a `.txt` path and a state that has media set. -/
theorem C7_setMedia_unsupported_noop_witness :
    ("notes.txt" ≠ "" ∧ getMediaType "notes.txt" = none) ∧
      setMedia "notes.txt"
        { BackgroundState.init with
            currentMedia := some "bg.png", currentType := some MediaType.image }
        = { BackgroundState.init with
            currentMedia := some "bg.png", currentType := some MediaType.image } :=
  ⟨⟨by decide, by decide⟩,
    C7_setMedia_unsupported_noop "notes.txt" _ (by decide) (by decide)⟩

/-- Claim C8: when no book or no rendition is present, `setFlow` still
updates the stored flow preference but performs no rendering-surface
teardown, recreation, or redisplay work (empty action trace, no other field
touched). -/
theorem C8_setFlow_noDocument (flow : String) (s : ReaderState)
    (h : s.hasBook = false ∨ s.hasRendition = false) :
    setFlow flow s = ({ s with flow := flow }, []) := by
  rcases h with h | h <;> simp [setFlow, h]

/-- Witness for C8 on the initial reader state (no book open). -/
theorem C8_setFlow_noDocument_witness :
    (ReaderState.init.hasBook = false ∨ ReaderState.init.hasRendition = false) ∧
      setFlow "scrolled" ReaderState.init
        = ({ ReaderState.init with flow := "scrolled" }, []) :=
  ⟨Or.inl rfl, C8_setFlow_noDocument "scrolled" ReaderState.init (Or.inl rfl)⟩

/-- Claim C9: `setMusic` on a new (non-empty) track path leaves the reported
volume and mute flag unchanged and changes only the track path. -/
theorem C9_setMusic_preserves_volume_mute (p : String) (s : BackgroundState)
    (hp : p ≠ "") :
    getCurrentMusic (setMusic p s)
      = (some p, (getCurrentMusic s).2.1, (getCurrentMusic s).2.2) := by
  simp [setMusic, getCurrentMusic, hp]

/-- Claim C1 (amended): `applyPreset` returns `false` both when the name is
unknown and when an underlying setter throws; the state is unchanged when the
name is unknown (not found in the cache, and the backend load is unavailable
or throws), while after a thrown setter the state keeps exactly the mutations
made before the throw — it is not rolled back. -/
theorem C1_applyPreset_failure (throws : SetterId → Bool) (it : Bool) (ad : String)
    (bl : String → Option Preset) (presets : List Preset) (name : String) (st : AppState) :
    (presets.find? (fun p => p.name == name) = none →
      (it = false ∨ bl name = none) →
      applyPreset throws it ad bl presets name st = (false, st)) ∧
    (∀ p st1, applyPresetBody throws it ad p st = Except.error st1 →
      applyPresetFound throws it ad p st = (false, st1)) := by
  constructor
  · intro hf hcase
    rcases hcase with h | h
    · subst h; simp [applyPreset, hf]
    · cases it <;> simp [applyPreset, hf, h]
  · intro p st1 h
    simp [applyPresetFound, h]

/-- Counterexample to C1 as stated: with a preset carrying a background and
an overlay, a throw in the overlay setter makes `applyPreset` return `false`
with the background mutation still in place — state is not left unchanged. -/
theorem C1_applyPreset_failure_counterexample :
    (applyPreset throwTint false "" (fun _ => none) [mediaPreset] "vibe" AppState.init).1
        = false ∧
    (applyPreset throwTint false "" (fun _ => none) [mediaPreset] "vibe"
        AppState.init).2.bg.currentMedia = some "bg.png" ∧
    (applyPreset throwTint false "" (fun _ => none) [mediaPreset] "vibe" AppState.init).2
        ≠ AppState.init := by
  decide

/-- Witness for C1: the unknown-name case leaves the state untouched, and the
thrown-setter case surfaces the partially mutated state. -/
theorem C1_applyPreset_failure_witness :
    (([] : List Preset).find? (fun p => p.name == "missing") = none ∧
      ((false = false) ∨ (fun _ => (none : Option Preset)) "missing" = none) ∧
      applyPreset noThrow false "" (fun _ => none) [] "missing" AppState.init
        = (false, AppState.init)) ∧
    (applyPresetBody throwTint false "" mediaPreset AppState.init
        = Except.error { AppState.init with bg := setMedia "bg.png" AppState.init.bg } ∧
      applyPresetFound throwTint false "" mediaPreset AppState.init
        = (false, { AppState.init with bg := setMedia "bg.png" AppState.init.bg })) :=
  ⟨⟨rfl, Or.inl rfl,
      (C1_applyPreset_failure noThrow false "" (fun _ => none) [] "missing"
        AppState.init).1 rfl (Or.inl rfl)⟩,
    ⟨rfl,
      (C1_applyPreset_failure throwTint false "" (fun _ => none) [] "missing"
        AppState.init).2 mediaPreset _ rfl⟩⟩

/-- Claim C2 (amended): the three built-ins are the listing exactly when the
persistence boundary is absent or its listing call throws; when the backend
successfully returns a stored list, the cache is the loaded stored presets
with no built-ins appended.  With the backend `delete_preset` command
modelled from the spec as refusing built-in names, `deletePreset` on a
built-in leaves the cached list unmutated (as it also does outside Tauri). -/
theorem C2_builtins_listing (b : Backend) (presets : List Preset) (name : String) :
    loadPresets false b = fallbackPresets ∧
    (b.listPresetNames = none → loadPresets true b = fallbackPresets) ∧
    (∀ names, b.listPresetNames = some names →
      loadPresets true b = names.filterMap b.loadStoredPreset) ∧
    (refusesBuiltinDeletes b → name ∈ BUILTIN_NAMES →
      deletePresetFront true b name presets = presets ∧
      deletePresetFront false b name presets = presets) := by
  refine ⟨rfl, ?_, ?_, ?_⟩
  · intro h; simp [loadPresets, h]
  · intro names h; simp [loadPresets, h]
  · intro hr hn
    have hd := hr name hn
    exact ⟨by simp [deletePresetFront, hd], by simp [deletePresetFront]⟩

/-- Counterexample to C2 as stated: a backend that successfully reports zero
stored presets yields an empty listing — the built-ins are absent. -/
theorem C2_builtins_listing_counterexample :
    loadPresets true emptyStoreBackend = [] ∧
    cozyReading ∉ loadPresets true emptyStoreBackend := by
  decide

/-- Witness for C2: a throwing listing call falls back to the built-ins, and
a refusing backend leaves the cached list unmutated on built-in deletion. -/
theorem C2_builtins_listing_witness :
    (downBackend.listPresetNames = none ∧ loadPresets true downBackend = fallbackPresets) ∧
    (refusesBuiltinDeletes refusingBackend ∧ "Cozy Reading" ∈ BUILTIN_NAMES ∧
      deletePresetFront true refusingBackend "Cozy Reading" [cozyReading] = [cozyReading] ∧
      deletePresetFront false refusingBackend "Cozy Reading" [cozyReading] = [cozyReading]) := by
  have hrefuse : refusesBuiltinDeletes refusingBackend := by
    intro n hn
    simp [refusingBackend, hn]
  refine ⟨⟨rfl, (C2_builtins_listing downBackend [] "Cozy Reading").2.1 rfl⟩,
    hrefuse, by decide, ?_⟩
  exact (C2_builtins_listing refusingBackend [cozyReading] "Cozy Reading").2.2.2 hrefuse
    (by decide)

/-- Claim C3 (amended): on a reachable combined state whose fields agree with
the preference record and whose overlay holds a color (is not in the cleared
`color = null` state), capturing the current state and immediately applying
the captured preset restores every appearance field — background media,
overlay color and opacity, and all reader fields — to its pre-capture value.
When the overlay is cleared, the capture stores the fallback color
`#000000` (at the same opacity), so re-applying sets the overlay color field
to `#000000` instead of `null`. -/
theorem C3_captureApply_roundTrip (it : Bool) (ad : String) (bl : String → Option Preset)
    (rest : List Preset) (name : String) (prefs : Prefs) (st : AppState)
    (hb1 : ∀ q, st.bg.currentMedia = some q → q ≠ "" ∧ getMediaType q = st.bg.currentType)
    (hb2 : st.bg.currentMedia = none → st.bg.currentType = none)
    (ho1 : st.overlay.currentColor ≠ none) (ho2 : st.overlay.currentColor ≠ some "")
    (ho3 : 0 ≤ st.overlay.currentOpacity) (ho4 : st.overlay.currentOpacity ≤ 1)
    (h1 : st.reader.opacity = clamp01 (jsNnR prefs.containerOpacity 95 / 100))
    (h2 : st.reader.backgroundColor = jsOrS prefs.containerColor "#FFFFFF")
    (h3 : st.reader.textColor = jsOrS prefs.textColor "#1a1a1a")
    (h4 : st.reader.fontFamily = jsOrS prefs.fontFamily "serif")
    (h5 : st.reader.fontSize = max 12 (min 32 (jsOrR prefs.fontSize 18)))
    (h6 : st.reader.flow = jsOrS prefs.readingMode "paginated")
    (h7 : st.reader.glassmorphism = prefs.glassmorphism)
    (h8 : st.reader.blur = max 0 (min 40 (jsNnR prefs.glassBlur 12)))
    (h9 : st.reader.scrollbarTrack = jsOrS prefs.scrollbarTrack "#1a1a1a")
    (h10 : st.reader.scrollbarThumb = jsOrS prefs.scrollbarThumb "#4a9eff") :
    applyPreset noThrow it ad bl (buildPresetFromCurrent name prefs st :: rest) name st
      = (true, st) := by
  have hfind : (buildPresetFromCurrent name prefs st :: rest).find?
      (fun p => p.name == name) = some (buildPresetFromCurrent name prefs st) :=
    List.find?_cons_of_pos _ (by simp [buildPresetFromCurrent])
  have hbody : applyPresetBody noThrow it ad (buildPresetFromCurrent name prefs st) st
      = Except.ok st := by
    unfold applyPresetBody buildPresetFromCurrent
    simp only [capturedBackground_apply it ad st hb1 hb2, exceptOkBind, step_noThrow_eq,
      capturedOverlay_apply st.overlay ho1 ho2 ho3 ho4,
      capturedReader_apply prefs st h1 h2 h3 h4 h5 h6 h7 h8 h9 h10]
  simp [applyPreset, hfind, applyPresetFound, hbody]

/-- Counterexample to C3 as stated: in the reachable first-run state the
overlay is cleared (`color = null`); capture-then-apply turns its color into
`#000000`, so not every appearance field is restored. -/
theorem C3_captureApply_roundTrip_counterexample :
    bootState.overlay.currentColor = none ∧
    (applyPreset noThrow false "" (fun _ => none)
        [buildPresetFromCurrent "mine" Prefs.init bootState] "mine"
        bootState).2.overlay.currentColor = some "#000000" :=
  ⟨rfl, rfl⟩

/-- Witness for C3 on a tinted, media-carrying, preference-consistent state. -/
theorem C3_captureApply_roundTrip_witness :
    ((∀ q, rtState.bg.currentMedia = some q → q ≠ "" ∧ getMediaType q = rtState.bg.currentType) ∧
      (rtState.bg.currentMedia = none → rtState.bg.currentType = none) ∧
      rtState.overlay.currentColor ≠ none ∧
      rtState.overlay.currentColor ≠ some "" ∧
      0 ≤ rtState.overlay.currentOpacity ∧
      rtState.overlay.currentOpacity ≤ 1) ∧
    applyPreset noThrow false "" (fun _ => none)
        (buildPresetFromCurrent "mine" Prefs.init rtState :: []) "mine" rtState
      = (true, rtState) := by
  have hb1 : ∀ q, rtState.bg.currentMedia = some q →
      q ≠ "" ∧ getMediaType q = rtState.bg.currentType := by
    intro q hq
    have hq2 : "bg.png" = q := Option.some.inj hq
    subst hq2
    exact ⟨by decide, rfl⟩
  have hb2 : rtState.bg.currentMedia = none → rtState.bg.currentType = none :=
    fun h => absurd h (by decide)
  have ho1 : rtState.overlay.currentColor ≠ none := by decide
  have ho2 : rtState.overlay.currentColor ≠ some "" := by decide
  have ho3 : (0 : Rat) ≤ rtState.overlay.currentOpacity := le_refl _
  have ho4 : rtState.overlay.currentOpacity ≤ 1 := zero_le_one
  exact ⟨⟨hb1, hb2, ho1, ho2, ho3, ho4⟩,
    C3_captureApply_roundTrip false "" (fun _ => none) [] "mine" Prefs.init rtState
      hb1 hb2 ho1 ho2 ho3 ho4 rfl rfl rfl rfl rfl rfl rfl rfl rfl rfl⟩

/-- Claim C4: at startup, when a `_last_session` preset is in the loaded
list, it is applied to the state holders and the preference record is
synchronized from the applied preset; when it is absent, the preference
record is applied directly to each state holder — the session snapshot takes
precedence over stored preferences whenever both are present. -/
theorem C4_sessionRestore_precedence (it : Bool) (ad : String)
    (bl : String → Option Preset) (presets : List Preset) (prefs : Prefs) (st : AppState) :
    (∀ p, presets.find? (fun q => q.name == "_last_session") = some p →
      initApplyAtmosphere it ad bl presets prefs st
        = ((applyPresetFound noThrow it ad p st).2, syncPrefsFromPreset p prefs)) ∧
    (presets.find? (fun q => q.name == "_last_session") = none →
      initApplyAtmosphere it ad bl presets prefs st = (applyPrefsDirect prefs st, prefs)) := by
  constructor
  · intro p hp
    have hmem := List.mem_of_find?_eq_some hp
    have hpred := List.find?_some hp
    have hany : presets.any (fun q => q.name == "_last_session") = true :=
      List.any_eq_true.mpr ⟨p, hmem, hpred⟩
    have hfst := applyPresetFound_noThrow_fst it ad p st
    simp [initApplyAtmosphere, hany, applyPreset, hp, hfst]
  · intro hp
    have hany : presets.any (fun q => q.name == "_last_session") = false := by
      rw [List.any_eq_false]
      intro q hq
      simpa using List.find?_eq_none.mp hp q hq
    simp [initApplyAtmosphere, hany]

/-- Witness for C4: a list with a session snapshot restores it; a list
without one applies the preferences directly. -/
theorem C4_sessionRestore_precedence_witness :
    ([cozyReading, sessionSnapshot].find? (fun q => q.name == "_last_session")
        = some sessionSnapshot ∧
      initApplyAtmosphere false "" (fun _ => none) [cozyReading, sessionSnapshot]
          Prefs.init AppState.init
        = ((applyPresetFound noThrow false "" sessionSnapshot AppState.init).2,
            syncPrefsFromPreset sessionSnapshot Prefs.init)) ∧
    (([cozyReading].find? (fun q => q.name == "_last_session")) = none ∧
      initApplyAtmosphere false "" (fun _ => none) [cozyReading] Prefs.init AppState.init
        = (applyPrefsDirect Prefs.init AppState.init, Prefs.init)) :=
  ⟨⟨rfl,
      (C4_sessionRestore_precedence false "" (fun _ => none) [cozyReading, sessionSnapshot]
        Prefs.init AppState.init).1 sessionSnapshot rfl⟩,
    ⟨rfl,
      (C4_sessionRestore_precedence false "" (fun _ => none) [cozyReading]
        Prefs.init AppState.init).2 rfl⟩⟩

/-- Claim C5: for a non-empty sequence of relocation events in which each
event arrives before the pending 2000 ms timer of its predecessor fires (in
particular events at 0 ms, 500 ms and 1000 ms), exactly one persisted
progress write occurs, and its payload is that of the last event — never an
aggregate and never more than one write. -/
theorem C5_debounce_lastWrite (bookId : Option String) (events : List Relocated)
    (hb : optTruthy bookId = true) (hne : events ≠ [])
    (hchain : events.Chain' (fun a b => b.time < a.time + 2000)) :
    debounceWrites 2000 bookId events
      = [((events.getLast hne).cfi, (events.getLast hne).fraction)] := by
  induction events with
  | nil => exact absurd rfl hne
  | cons e rest ih =>
    cases rest with
    | nil => simp [debounceWrites, hb]
    | cons e2 rest2 =>
      rw [List.chain'_cons] at hchain
      have hrec := ih (by simp) hchain.2
      have hstep : debounceWrites 2000 bookId (e :: e2 :: rest2)
          = debounceWrites 2000 bookId (e2 :: rest2) := by
        simp [debounceWrites, hchain.1]
      rw [hstep, hrec, List.getLast_cons_cons]

/-- Witness for C5 at events 0 ms / 500 ms / 1000 ms with an open book. -/
theorem C5_debounce_lastWrite_witness :
    (optTruthy (some "book-1") = true ∧ relocEvents ≠ [] ∧
      relocEvents.Chain' (fun a b => b.time < a.time + 2000)) ∧
    debounceWrites 2000 (some "book-1") relocEvents = [("cfiC", 1/5)] := by
  have hch : relocEvents.Chain' (fun a b => b.time < a.time + 2000) :=
    List.chain'_cons.mpr ⟨by decide,
      List.chain'_cons.mpr ⟨by decide, List.chain'_singleton _⟩⟩
  refine ⟨⟨by decide, by decide, hch⟩, ?_⟩
  have h := C5_debounce_lastWrite (some "book-1") relocEvents (by decide) (by decide) hch
  exact h.trans rfl

/-- Witness for C9: setting a track after a custom volume and unmuting. -/
theorem C9_setMusic_preserves_volume_mute_witness :
    "calm.mp3" ≠ "" ∧
      getCurrentMusic (setMusic "calm.mp3"
          (setMusicMuted false (setMusicVolume 30 BackgroundState.init)))
        = (some "calm.mp3",
            (getCurrentMusic (setMusicMuted false (setMusicVolume 30 BackgroundState.init))).2.1,
            (getCurrentMusic (setMusicMuted false (setMusicVolume 30 BackgroundState.init))).2.2) :=
  ⟨by decide, C9_setMusic_preserves_volume_mute "calm.mp3" _ (by decide)⟩

end Epilogue
